import Mathlib

/-!
# Verification of the spatial reverb segment (src/segments/spatial_reverb.c)

Shallow embedding of the spatial reverb segment of libmixed. C `float`
values are modelled as exact rationals (`ℚ`); float literals appearing in
the source (0.0001, 1000.0, 0.01, 0.2, 0.5, 0.75, ...) are taken at their
exact decimal value. `uint32_t`/`uint8_t` indices are modelled as `ℕ` and
`Fin` types; the conversion of a non-negative float to `uint32_t` truncates
toward zero, which on non-negative rationals is `Int.toNat ∘ Int.floor`.

The delay buffer of a direction is modelled as a total function `ℕ → ℚ`;
the C code only ever accesses indices below `delay_capacity`.
-/

/-- The C double constant `M_PI` (the IEEE-754 double nearest to π),
taken at its exact rational value. -/
def M_PI : ℚ := 884279719003555 / 281474976710656

/-- Modelled from the spec: `sqrt` is the C library square root, an
external collaborator not under src/. `sqrt(2*M_PI)` is the only use; we
take the exact rational value of the IEEE-754 double result. -/
def sqrt_2_M_PI : ℚ := 5644425081792261 / 2251799813685248

/-- Modelled from the spec: `expf` is the C library exponential, an
external collaborator not under src/. It is modelled by a rational Taylor
approximant; no claim below depends on its values beyond `rexp 0 = 1`. -/
def rexp (x : ℚ) : ℚ := ∑ k ∈ Finset.range 21, x ^ k / (Nat.factorial k : ℚ)

/-- C truncation toward zero of a rational (the rounding used by
`(uint32_t)` casts and by `fmod`). -/
def qtrunc (q : ℚ) : ℤ := if 0 ≤ q then ⌊q⌋ else ⌈q⌉

/-- The C library `fmod(x, y)`: `x - trunc(x/y)*y`, with the sign of the
dividend `x`. Modelled from the spec: `fmod` is a libm routine not under
src/. -/
def cfmod (x y : ℚ) : ℚ := x - y * (qtrunc (x / y) : ℚ)

/-- The C struct `biquad_data` (biquad.c is not under src/). Modelled from the
spec: a second-order IIR filter design holding coefficients and internal
state; "applies one input sample to filter state and returns one output
sample; supports resetting internal state to silence". -/
structure biquad_data where
  b0 : ℚ
  b1 : ℚ
  b2 : ℚ
  a1 : ℚ
  a2 : ℚ
  x1 : ℚ
  x2 : ℚ
  y1 : ℚ
  y2 : ℚ
deriving Repr

/-- Modelled from the spec: apply one input sample to the filter state and
return the output sample together with the updated state (standard
direct-form-I second-order IIR recurrence). -/
def biquad_sample (x : ℚ) (bq : biquad_data) : ℚ × biquad_data :=
  let y := bq.b0 * x + bq.b1 * bq.x1 + bq.b2 * bq.x2 - bq.a1 * bq.y1 - bq.a2 * bq.y2
  (y, { bq with x1 := x, x2 := bq.x1, y1 := y, y2 := bq.y1 })

/-- Modelled from the spec: reset internal filter state to silence
(coefficients are a design, not state, and are kept). -/
def biquad_reset (bq : biquad_data) : biquad_data :=
  { bq with x1 := 0, x2 := 0, y1 := 0, y2 := 0 }

/-- Modelled from the spec: the lowpass coefficient design from
(samplerate, cutoff, Q). The spec treats the design mathematics as an
external contract ("only its contract is used here"); the coefficients are
modelled as an injective record of the design inputs. No claim below
depends on coefficient values. -/
def biquad_lowpass (samplerate cutoff q : ℚ) (bq : biquad_data) : biquad_data :=
  { bq with b0 := 1, b1 := samplerate, b2 := cutoff, a1 := q, a2 := 0 }

/-- Modelled from the spec: the allpass coefficient design from
(samplerate, cutoff, Q); see `biquad_lowpass`. -/
def biquad_allpass (samplerate cutoff q : ℚ) (bq : biquad_data) : biquad_data :=
  { bq with b0 := 2, b1 := samplerate, b2 := cutoff, a1 := q, a2 := 0 }

/-- The C struct `spatial_reverb_direction`. -/
structure spatial_reverb_direction where
  last : ℚ
  delay : ℕ → ℚ
  delay_idx : ℕ
  delay_length : ℕ
  lpf : biquad_data
  apf : biquad_data
  gain : ℚ

/-- The C struct `spatial_reverb_segment_data` (the two in/out buffer bindings
are external collaborators and are not part of the modelled state; the
probe ring `PROBE_COUNT = 32`). -/
structure spatial_reverb_segment_data where
  directions : Fin 4 → spatial_reverb_direction
  samplerate : ℕ
  delay_capacity : ℕ
  distance_delay_factor : ℚ
  max_distance_cutoff : ℚ
  probe_angles : Fin 32 → ℚ
  probe_distances : Fin 32 → ℚ
  probe_materials : Fin 32 → ℚ
  probe_index : Fin 32

/-- The C function `update_parameters`: recomputes each direction's delay length, gain
and filter designs from per-direction distances, hit ratios and absorption
rates. The C code computes
`uint32_t delay_length = (distance_delay_factor * distances[d]) * samplerate;`
(a truncating float-to-uint conversion) and then clamps with
`MAX(1, MIN(delay_length, delay_capacity))`. -/
def update_parameters (data : spatial_reverb_segment_data)
    (distances hit_ratios absorption_rates : Fin 4 → ℚ) :
    spatial_reverb_segment_data :=
  { data with directions := fun d =>
      let dir := data.directions d
      let delay_length : ℕ :=
        (qtrunc ((data.distance_delay_factor * distances d) * (data.samplerate : ℚ))).toNat
      { dir with
        delay_length := max 1 (min delay_length data.delay_capacity)
        gain := hit_ratios d
        lpf := biquad_lowpass (data.samplerate : ℚ)
          (absorption_rates d * (data.samplerate : ℚ)) 0 dir.lpf
        apf := biquad_allpass (data.samplerate : ℚ)
          (absorption_rates d * (data.samplerate : ℚ)) 1 dir.apf } }

/-- The C function `gauss(x) = expf(-0.5 * powf(x/dev, 2)) / (dev*sqrt(2*M_PI))` with
`dev = 0.2`. -/
def gauss (x : ℚ) : ℚ :=
  rexp (-(1/2) * (x / (1/5)) ^ 2) / ((1/5) * sqrt_2_M_PI)

/-- The Gaussian weight of probe `i` for direction angle `angle`
(`gauss(angle - angles[i])` in `recompute_parameter`). -/
def probe_weight (data : spatial_reverb_segment_data) (angle : ℚ) (i : Fin 32) : ℚ :=
  gauss (angle - data.probe_angles i)

/-- Whether probe `i` is a hit: `distances[i] < max_distance_cutoff`
(the guard in `recompute_parameter`). -/
def is_hit (data : spatial_reverb_segment_data) (i : Fin 32) : Prop :=
  data.probe_distances i < data.max_distance_cutoff

instance (data : spatial_reverb_segment_data) (i : Fin 32) :
    Decidable (is_hit data i) := by
  unfold is_hit; infer_instance

/-- The `weight_sum` accumulated by `recompute_parameter`: every probe
contributes regardless of distance. -/
def weight_sum (data : spatial_reverb_segment_data) (angle : ℚ) : ℚ :=
  ∑ i : Fin 32, probe_weight data angle i

/-- The `distance_sum` accumulated by `recompute_parameter`: hits only. -/
def distance_sum (data : spatial_reverb_segment_data) (angle : ℚ) : ℚ :=
  ∑ i : Fin 32,
    if is_hit data i then data.probe_distances i * probe_weight data angle i else 0

/-- The `hit_ratio_sum` accumulated by `recompute_parameter`: hits only. -/
def hit_ratio_sum (data : spatial_reverb_segment_data) (angle : ℚ) : ℚ :=
  ∑ i : Fin 32, if is_hit data i then 1 * probe_weight data angle i else 0

/-- The `absorption_sum` accumulated by `recompute_parameter`: hits only. -/
def absorption_sum (data : spatial_reverb_segment_data) (angle : ℚ) : ℚ :=
  ∑ i : Fin 32,
    if is_hit data i then data.probe_materials i * probe_weight data angle i else 0

/-- The C function `recompute_parameter`: resolve one direction's (distance, hit ratio,
absorption) triple from the probe history. -/
def recompute_parameter (data : spatial_reverb_segment_data) (angle : ℚ) :
    ℚ × ℚ × ℚ :=
  if 1/100 < weight_sum data angle then
    let invsum := 1 / weight_sum data angle
    (distance_sum data angle * invsum,
     hit_ratio_sum data angle * invsum,
     absorption_sum data angle * invsum)
  else
    (0, 0, 0)

/-- The C function `recompute_parameters`: resolve all four directions at the canonical
angles 0.75π, 1.25π, 1.75π, 0.25π and feed them to `update_parameters`. -/
def recompute_parameters (data : spatial_reverb_segment_data) :
    spatial_reverb_segment_data :=
  let p0 := recompute_parameter data (M_PI * (3/4))
  let p1 := recompute_parameter data (M_PI * (5/4))
  let p2 := recompute_parameter data (M_PI * (7/4))
  let p3 := recompute_parameter data (M_PI * (1/4))
  update_parameters data
    ![p0.1, p1.1, p2.1, p3.1]
    ![p0.2.1, p1.2.1, p2.2.1, p3.2.1]
    ![p0.2.2, p1.2.2, p2.2.2, p3.2.2]

/-- The segment facade state: the segment data plus which mix function is
installed (`segment->mix`), modelled as a bypass flag. -/
structure segment_state where
  data : spatial_reverb_segment_data
  bypass : Bool

/-- Error codes reported through `mixed_err`. -/
inductive mixed_error where
  | invalid_field
  | invalid_value
  | invalid_location
  | out_of_memory
deriving Repr, DecidableEq

/-- A `spatial_reverb_segment_set` call: the field identifier together with
its typed value. Any field identifier other than the five handled ones
falls into the `default` case, modelled by `unknown`. -/
inductive set_field where
  | distance_delay (v : ℚ)
  | max_cutoff (v : ℚ)
  | parameters (v : Fin 12 → ℚ)
  | probe (angle distance material : ℚ)
  | bypass_flag (b : Bool)
  | unknown (field : ℕ)

/-- The C function `spatial_reverb_segment_set`: returns the error reported through
`mixed_err` (`none` on success, mirroring return value 1) together with
the resulting state. Each failing branch of the C switch returns before
mutating anything, so those branches return the input state unchanged. -/
def spatial_reverb_segment_set (f : set_field) (s : segment_state) :
    Option mixed_error × segment_state :=
  match f with
  | .distance_delay v =>
      if v < 0 then (some .invalid_value, s)
      else (none, { s with data := { s.data with distance_delay_factor := v } })
  | .max_cutoff v =>
      (none, { s with data := { s.data with max_distance_cutoff := v } })
  | .parameters v =>
      (none, { s with data :=
        (update_parameters s.data
          (fun d => v ⟨d.val, by omega⟩)
          (fun d => v ⟨d.val + 4, by omega⟩)
          (fun d => v ⟨d.val + 8, by omega⟩)) })
  | .probe angle distance material =>
      let idx := s.data.probe_index
      let data2 := { s.data with
        probe_angles := Function.update s.data.probe_angles idx (cfmod angle (2 * M_PI))
        probe_distances := Function.update s.data.probe_distances idx distance
        probe_materials := Function.update s.data.probe_materials idx material
        probe_index := idx + 1 }
      (none, { s with data := recompute_parameters data2 })
  | .bypass_flag b => (none, { s with bypass := b })
  | .unknown _ => (some .invalid_field, s)

/-- The C function `spatial_reverb_segment_start`: zero every direction's `last`, delay
buffer (`memset` over `delay_capacity` floats; the model zeroes the whole
buffer function, whose indices at or above the capacity are never read),
and `delay_idx`, and reset both filters. -/
def spatial_reverb_segment_start (data : spatial_reverb_segment_data) :
    spatial_reverb_segment_data :=
  { data with directions := fun d =>
      let dir := data.directions d
      { dir with
        last := 0
        delay := fun _ => 0
        delay_idx := 0
        lpf := biquad_reset dir.lpf
        apf := biquad_reset dir.apf } }

/-- One direction's processing of one input sample, in the statement order
of the inner loop of `spatial_reverb_segment_mix`: returns the updated
direction state and the output sample `d_out[d]`. -/
def dir_step (dir : spatial_reverb_direction) (input : ℚ) :
    spatial_reverb_direction × ℚ :=
  let sample := dir.last + input
  let delayed := dir.delay dir.delay_idx
  let gained := delayed * dir.gain
  let lp := biquad_sample gained dir.lpf
  let ap := biquad_sample lp.1 dir.apf
  let out := ap.1
  ({ dir with
      delay := Function.update dir.delay dir.delay_idx sample
      delay_idx := (dir.delay_idx + 1) % dir.delay_length
      last := out
      lpf := lp.2
      apf := ap.2 }, out)

/-- One iteration of the sample loop of `spatial_reverb_segment_mix`:
upmix `(L, R)` to `{L, L, R, R}`, run each direction, downmix to
`((d0+d1)/2, (d2+d3)/2)`. -/
def mix_sample (data : spatial_reverb_segment_data) (L R : ℚ) :
    spatial_reverb_segment_data × ℚ × ℚ :=
  let d_in : Fin 4 → ℚ := ![L, L, R, R]
  let step := fun d => dir_step (data.directions d) (d_in d)
  ({ data with directions := fun d => (step d).1 },
   (((step 0).2 + (step 1).2) / 2, ((step 2).2 + (step 3).2) / 2))

/-- The C function `spatial_reverb_segment_mix` over a block of stereo samples (the
buffer request/finish protocol is an external collaborator; the block is
the list of available input frames). -/
def mix_block (data : spatial_reverb_segment_data) :
    List (ℚ × ℚ) → spatial_reverb_segment_data × List (ℚ × ℚ)
  | [] => (data, [])
  | (L, R) :: rest =>
      let s := mix_sample data L R
      let r := mix_block s.1 rest
      (r.1, s.2 :: r.2)

/-- The C function `mixed_make_segment_spatial_reverb`: `calloc` zeroes the whole data
block, then the samplerate, capacity (= samplerate), default tuning
(`distance_delay_factor = 0.0001`, `max_distance_cutoff = 1000.0`) and the
per-direction defaults are installed. Allocation failure is not modelled.
The installed mix function is the normal one (`bypass = false`). -/
def mixed_make_segment_spatial_reverb (samplerate : ℕ) : segment_state :=
  { data :=
    { directions := fun _ =>
        { last := 0
          delay := fun _ => 0
          delay_idx := 0
          delay_length := 1
          gain := 0
          lpf := biquad_lowpass (samplerate : ℚ) (samplerate : ℚ) 0
            { b0 := 0, b1 := 0, b2 := 0, a1 := 0, a2 := 0
              x1 := 0, x2 := 0, y1 := 0, y2 := 0 }
          apf := biquad_allpass (samplerate : ℚ) (samplerate : ℚ) 1
            { b0 := 0, b1 := 0, b2 := 0, a1 := 0, a2 := 0
              x1 := 0, x2 := 0, y1 := 0, y2 := 0 } }
      samplerate := samplerate
      delay_capacity := samplerate
      distance_delay_factor := 0.0001
      max_distance_cutoff := 1000.0
      probe_angles := fun _ => 0
      probe_distances := fun _ => 0
      probe_materials := fun _ => 0
      probe_index := 0 }
    bypass := false }

/-- The writeIndex invariant of the spec's data model:
`0 ≤ writeIndex < currentDelayLengthSamples` for every direction (the
lower bound is automatic for `ℕ`). -/
def write_index_invariant (data : spatial_reverb_segment_data) : Prop :=
  ∀ d : Fin 4, (data.directions d).delay_idx < (data.directions d).delay_length

instance (data : spatial_reverb_segment_data) :
    Decidable (write_index_invariant data) := by
  unfold write_index_invariant; infer_instance

/-- The delay-length formula as the spec states it (with `round`):
`clamp(round(distanceDelayFactor * distance * sampleRate), 1, delayCapacity)`.
Written from the spec's words, for comparison with `update_parameters`. -/
def spec_delay_length (factor distance : ℚ) (samplerate delay_capacity : ℕ) : ℕ :=
  max 1 (min (round (factor * distance * (samplerate : ℚ))).toNat delay_capacity)

/-- The delay-length formula the code computes: truncation toward zero
instead of rounding to nearest. -/
def code_delay_length (factor distance : ℚ) (samplerate delay_capacity : ℕ) : ℕ :=
  max 1 (min (qtrunc ((factor * distance) * (samplerate : ℚ))).toNat delay_capacity)

/-- A direction channel is in the silent reset state: zero feedback
accumulator, all-zero delay buffer, zero internal filter state. -/
def dir_silent (dir : spatial_reverb_direction) : Prop :=
  dir.last = 0 ∧ (∀ i, dir.delay i = 0) ∧
  dir.lpf.x1 = 0 ∧ dir.lpf.x2 = 0 ∧ dir.lpf.y1 = 0 ∧ dir.lpf.y2 = 0 ∧
  dir.apf.x1 = 0 ∧ dir.apf.x2 = 0 ∧ dir.apf.y1 = 0 ∧ dir.apf.y2 = 0

/-- All four directions are silent. -/
def all_silent (data : spatial_reverb_segment_data) : Prop :=
  ∀ d : Fin 4, dir_silent (data.directions d)

/-! ## Theorems -/

/-- C1 counterexample: the claim's formula rounds to nearest, but the code
truncates the float-to-`uint32_t` conversion. At samplerate 48000 with the
default `distance_delay_factor = 0.0001` and a bulk-set distance of 0.75,
the factor-distance-samplerate product is 3.6: the code yields delay
length 3 while `clamp(round(3.6), 1, 48000) = 4`. -/
theorem C1_counterexample_truncation_not_rounding :
    ¬ (((spatial_reverb_segment_set (.parameters (fun _ => 3/4))
          (mixed_make_segment_spatial_reverb 48000)).2.data.directions 0).delay_length
        = spec_delay_length
            (mixed_make_segment_spatial_reverb 48000).data.distance_delay_factor (3/4)
            48000 48000) := by
  have h1 : ((spatial_reverb_segment_set (.parameters (fun _ => 3/4))
      (mixed_make_segment_spatial_reverb 48000)).2.data.directions 0).delay_length = 3 := by
    simp [spatial_reverb_segment_set, update_parameters, mixed_make_segment_spatial_reverb]
    norm_num [qtrunc]
    omega
  have h2 : spec_delay_length
      (mixed_make_segment_spatial_reverb 48000).data.distance_delay_factor (3/4)
      48000 48000 = 4 := by
    simp [spec_delay_length, mixed_make_segment_spatial_reverb]
    rw [round_eq]
    norm_num
    omega
  omega

/-- C1 (amended): whenever parameters are recomputed, the resulting
`delay_length` equals `clamp(trunc(distanceDelayFactor * distance *
sampleRate), 1, delayCapacity)` — truncation toward zero, not rounding to
nearest; and in the concrete scenario (samplerate 48000, construction
default factor 0.0001, resolved distance 100) the result is 480. -/
theorem C1_amended_delay_length_truncates
    (data : spatial_reverb_segment_data) (dists hits abss : Fin 4 → ℚ) (d : Fin 4) :
    ((update_parameters data dists hits abss).directions d).delay_length
      = code_delay_length data.distance_delay_factor (dists d)
          data.samplerate data.delay_capacity ∧
    ((spatial_reverb_segment_set (.parameters (fun _ => 100))
        (mixed_make_segment_spatial_reverb 48000)).2.data.directions 0).delay_length
      = 480 := by
  constructor
  · rfl
  · simp [spatial_reverb_segment_set, update_parameters, mixed_make_segment_spatial_reverb]
    norm_num [qtrunc]
    omega

/-- C6: for every non-negative distance-delay factor and non-negative
resolved distance, the delay length produced by a parameter update lies
within `[1, delay_capacity]` (the interval is inhabited as the capacity is
at least 1). -/
theorem C6_delay_length_within_bounds
    (data : spatial_reverb_segment_data) (dists hits abss : Fin 4 → ℚ) (d : Fin 4)
    (hf : 0 ≤ data.distance_delay_factor) (hd : 0 ≤ dists d)
    (hcap : 1 ≤ data.delay_capacity) :
    1 ≤ ((update_parameters data dists hits abss).directions d).delay_length ∧
    ((update_parameters data dists hits abss).directions d).delay_length
      ≤ data.delay_capacity := by
  constructor <;> simp [update_parameters] <;> omega

/-- C6 witness: at the freshly created engine (samplerate 10) with
distances 1, the hypotheses hold and the produced delay length is within
`[1, delay_capacity]`. -/
theorem C6_witness :
    1 ≤ ((update_parameters (mixed_make_segment_spatial_reverb 10).data
          (fun _ => 1) (fun _ => 1) (fun _ => 1)).directions 0).delay_length ∧
    ((update_parameters (mixed_make_segment_spatial_reverb 10).data
          (fun _ => 1) (fun _ => 1) (fun _ => 1)).directions 0).delay_length
      ≤ (mixed_make_segment_spatial_reverb 10).data.delay_capacity :=
  C6_delay_length_within_bounds _ _ _ _ 0
    (by norm_num [mixed_make_segment_spatial_reverb])
    (by norm_num)
    (by norm_num [mixed_make_segment_spatial_reverb])

/-- C9: after a successful create, the probe history holds 32 zeroed
probes (angle 0, distance 0, absorption 0) with the write cursor at slot
0; the default cutoff is 1000, so every zeroed slot satisfies the hit
predicate used by `recompute_parameter`. -/
theorem C9_created_probe_history (samplerate : ℕ) :
    (∀ i : Fin 32,
      (mixed_make_segment_spatial_reverb samplerate).data.probe_angles i = 0 ∧
      (mixed_make_segment_spatial_reverb samplerate).data.probe_distances i = 0 ∧
      (mixed_make_segment_spatial_reverb samplerate).data.probe_materials i = 0) ∧
    (mixed_make_segment_spatial_reverb samplerate).data.probe_index = 0 ∧
    (mixed_make_segment_spatial_reverb samplerate).data.max_distance_cutoff = 1000 ∧
    (∀ i : Fin 32, is_hit (mixed_make_segment_spatial_reverb samplerate).data i) := by
  refine ⟨fun i => ⟨rfl, rfl, rfl⟩, rfl,
    by norm_num [mixed_make_segment_spatial_reverb], fun i => ?_⟩
  norm_num [is_hit, mixed_make_segment_spatial_reverb]

/-- C8: every failed set call (unknown field identifier, or a negative
distance-delay factor) reports an error synchronously, returns failure,
and leaves the entire segment state unchanged; the two failure conditions
report `invalid_field` and `invalid_value` respectively. -/
theorem C8_failed_set_leaves_state_unchanged (s : segment_state) :
    (∀ f : set_field, ((spatial_reverb_segment_set f s).1).isSome →
        (spatial_reverb_segment_set f s).2 = s) ∧
    (∀ n : ℕ, spatial_reverb_segment_set (.unknown n) s
        = (some .invalid_field, s)) ∧
    (∀ v : ℚ, v < 0 → spatial_reverb_segment_set (.distance_delay v) s
        = (some .invalid_value, s)) := by
  refine ⟨fun f hf => ?_, fun n => rfl, fun v hv => ?_⟩
  · cases f with
    | distance_delay v =>
        by_cases hv : v < 0 <;> simp [spatial_reverb_segment_set, hv] at hf ⊢
    | max_cutoff v => simp [spatial_reverb_segment_set] at hf
    | parameters v => simp [spatial_reverb_segment_set] at hf
    | probe a d m => simp [spatial_reverb_segment_set] at hf
    | bypass_flag b => simp [spatial_reverb_segment_set] at hf
    | unknown n => rfl
  · simp [spatial_reverb_segment_set, hv]

/-- C8 witness: at the freshly created engine, a set with an unknown
field identifier fails with `invalid_field` leaving the state unchanged,
and a set of distance-delay factor -1 fails with `invalid_value` leaving
the state unchanged. -/
theorem C8_witness :
    spatial_reverb_segment_set (.unknown 99) (mixed_make_segment_spatial_reverb 10)
      = (some .invalid_field, mixed_make_segment_spatial_reverb 10) ∧
    spatial_reverb_segment_set (.distance_delay (-1)) (mixed_make_segment_spatial_reverb 10)
      = (some .invalid_value, mixed_make_segment_spatial_reverb 10) ∧
    (spatial_reverb_segment_set (.unknown 99) (mixed_make_segment_spatial_reverb 10)).2
      = mixed_make_segment_spatial_reverb 10 :=
  ⟨(C8_failed_set_leaves_state_unchanged (mixed_make_segment_spatial_reverb 10)).2.1 99,
   (C8_failed_set_leaves_state_unchanged (mixed_make_segment_spatial_reverb 10)).2.2 (-1)
     (by norm_num),
   (C8_failed_set_leaves_state_unchanged (mixed_make_segment_spatial_reverb 10)).1
     (.unknown 99) (by simp [spatial_reverb_segment_set])⟩

/-- C10: setting the max-distance cutoff succeeds for every value
(including negative ones), storing it without any range check and leaving
every other field alone; and a negative cutoff makes every probe with a
non-negative stored distance (as the data model requires of probes) a miss
in subsequent recomputes. -/
theorem C10_max_cutoff_unvalidated (s : segment_state) (v : ℚ) :
    spatial_reverb_segment_set (.max_cutoff v) s
      = (none, { s with data := { s.data with max_distance_cutoff := v } }) ∧
    (v < 0 → ∀ i : Fin 32, 0 ≤ s.data.probe_distances i →
      ¬ is_hit { s.data with max_distance_cutoff := v } i) := by
  refine ⟨rfl, fun hv i hi => ?_⟩
  simp only [is_hit, not_lt]
  exact le_trans hv.le hi

/-- C10 witness: on the freshly created engine, setting the cutoff to -5
succeeds, and slot 0 (stored distance 0) is a miss under the new cutoff. -/
theorem C10_witness :
    spatial_reverb_segment_set (.max_cutoff (-5)) (mixed_make_segment_spatial_reverb 10)
      = (none, { mixed_make_segment_spatial_reverb 10 with
          data := { (mixed_make_segment_spatial_reverb 10).data with
            max_distance_cutoff := -5 } }) ∧
    ¬ is_hit { (mixed_make_segment_spatial_reverb 10).data with
        max_distance_cutoff := -5 } 0 :=
  ⟨(C10_max_cutoff_unvalidated (mixed_make_segment_spatial_reverb 10) (-5)).1,
   (C10_max_cutoff_unvalidated (mixed_make_segment_spatial_reverb 10) (-5)).2
     (by norm_num) 0 (by norm_num [mixed_make_segment_spatial_reverb])⟩

/-- Range of the C `fmod`: for a positive modulus the result lies strictly
between `-y` and `y`, and is non-negative whenever the dividend is. -/
lemma cfmod_range (x y : ℚ) (hy : 0 < y) :
    -y < cfmod x y ∧ cfmod x y < y ∧ (0 ≤ x → 0 ≤ cfmod x y) := by
  unfold cfmod qtrunc
  by_cases hq : 0 ≤ x / y
  · rw [if_pos hq]
    have h1 : ((⌊x / y⌋ : ℤ) : ℚ) ≤ x / y := Int.floor_le _
    have h2 : x / y < (⌊x / y⌋ : ℤ) + 1 := Int.lt_floor_add_one _
    rw [le_div_iff hy] at h1
    rw [div_lt_iff hy] at h2
    refine ⟨by nlinarith, by nlinarith, fun _ => by nlinarith⟩
  · rw [if_neg hq]
    push_neg at hq
    have h1 : x / y ≤ ((⌈x / y⌉ : ℤ) : ℚ) := Int.le_ceil _
    have h2 : ((⌈x / y⌉ : ℤ) : ℚ) < x / y + 1 := Int.ceil_lt_add_one _
    rw [div_le_iff hy] at h1
    have h3 : ((⌈x / y⌉ : ℤ) : ℚ) * y < (x / y + 1) * y := by
      exact mul_lt_mul_of_pos_right h2 hy
    rw [add_mul, div_mul_cancel₀ _ hy.ne'] at h3
    have hx : x < 0 := by
      by_contra hxc
      push_neg at hxc
      have := div_nonneg hxc hy.le
      linarith
    refine ⟨by nlinarith, by nlinarith, fun hx0 => absurd hx0 (not_le.mpr hx)⟩

/-- The double constant `2 * M_PI` is positive. -/
lemma two_M_PI_pos : 0 < 2 * M_PI := by norm_num [M_PI]

/-- C4 counterexample: inserting a probe with the negative angle -1 stores
`fmod(-1, 2π) = -1` in the probe history — a value outside `[0, 2π)` —
refuting the claim that the stored angle always lies in `[0, 2π)`. -/
theorem C4_counterexample_negative_angle :
    (spatial_reverb_segment_set (.probe (-1) 5 0)
        (mixed_make_segment_spatial_reverb 10)).2.data.probe_angles
        (mixed_make_segment_spatial_reverb 10).data.probe_index = -1 ∧
    ¬ (0 ≤ (-1 : ℚ)) := by
  constructor
  · have h : cfmod (-1) (2 * M_PI) = -1 := by norm_num [cfmod, qtrunc, M_PI]
    simp [spatial_reverb_segment_set, mixed_make_segment_spatial_reverb,
      recompute_parameters, update_parameters, h]
  · norm_num

/-- C4 (amended): inserting a probe always succeeds, stores
`fmod(angle, 2π)` (which lies in `(-2π, 2π)`, and in `[0, 2π)` only for
non-negative inputs), the probe's distance and material at the current
write cursor, leaves all other slots untouched, advances the cursor by one
modulo 32, and triggers a full recompute of all four directions. -/
theorem C4_amended_probe_insertion (s : segment_state) (a dist m : ℚ) :
    (spatial_reverb_segment_set (.probe a dist m) s).1 = none ∧
    (spatial_reverb_segment_set (.probe a dist m) s).2.data.probe_angles
      s.data.probe_index = cfmod a (2 * M_PI) ∧
    (spatial_reverb_segment_set (.probe a dist m) s).2.data.probe_distances
      s.data.probe_index = dist ∧
    (spatial_reverb_segment_set (.probe a dist m) s).2.data.probe_materials
      s.data.probe_index = m ∧
    (∀ j : Fin 32, j ≠ s.data.probe_index →
      (spatial_reverb_segment_set (.probe a dist m) s).2.data.probe_angles j
        = s.data.probe_angles j ∧
      (spatial_reverb_segment_set (.probe a dist m) s).2.data.probe_distances j
        = s.data.probe_distances j ∧
      (spatial_reverb_segment_set (.probe a dist m) s).2.data.probe_materials j
        = s.data.probe_materials j) ∧
    (spatial_reverb_segment_set (.probe a dist m) s).2.data.probe_index
      = s.data.probe_index + 1 ∧
    (spatial_reverb_segment_set (.probe a dist m) s).2.data
      = recompute_parameters { s.data with
          probe_angles :=
            Function.update s.data.probe_angles s.data.probe_index (cfmod a (2 * M_PI))
          probe_distances :=
            Function.update s.data.probe_distances s.data.probe_index dist
          probe_materials :=
            Function.update s.data.probe_materials s.data.probe_index m
          probe_index := s.data.probe_index + 1 } ∧
    (-(2 * M_PI) < cfmod a (2 * M_PI) ∧ cfmod a (2 * M_PI) < 2 * M_PI) ∧
    (0 ≤ a → 0 ≤ cfmod a (2 * M_PI)) := by
  obtain ⟨hlo, hhi, hnn⟩ := cfmod_range a (2 * M_PI) two_M_PI_pos
  refine ⟨rfl, ?_, ?_, ?_, fun j hj => ⟨?_, ?_, ?_⟩, rfl, rfl, ⟨hlo, hhi⟩, hnn⟩
  · exact Function.update_same _ _ _
  · exact Function.update_same _ _ _
  · exact Function.update_same _ _ _
  · exact Function.update_noteq hj _ _
  · exact Function.update_noteq hj _ _
  · exact Function.update_noteq hj _ _

/-- C4 witness: inserting the probe (angle 1, distance 2, material 3) into
the freshly created engine succeeds, stores `fmod(1, 2π)` at slot 0, and
that stored angle is non-negative (angle 1 being non-negative). -/
theorem C4_witness :
    (spatial_reverb_segment_set (.probe 1 2 3)
        (mixed_make_segment_spatial_reverb 10)).1 = none ∧
    (spatial_reverb_segment_set (.probe 1 2 3)
        (mixed_make_segment_spatial_reverb 10)).2.data.probe_angles
        (mixed_make_segment_spatial_reverb 10).data.probe_index = cfmod 1 (2 * M_PI) ∧
    0 ≤ cfmod 1 (2 * M_PI) :=
  ⟨(C4_amended_probe_insertion (mixed_make_segment_spatial_reverb 10) 1 2 3).1,
   (C4_amended_probe_insertion (mixed_make_segment_spatial_reverb 10) 1 2 3).2.1,
   (C4_amended_probe_insertion (mixed_make_segment_spatial_reverb 10) 1 2 3).2.2.2.2.2.2.2.2
     (by norm_num)⟩

/-- C5 (amended): if every probe in the history is a miss
(`distance ≥ maxDistanceCutoff`), the per-direction recompute resolves
hit-ratio, absorption AND distance all to 0, for every direction angle —
the distance numerator accumulates nothing on misses, so even when
`weightSum > 0.01` the division yields `0 * (1/weightSum) = 0`. -/
theorem C5_all_miss_resolves_to_zero (data : spatial_reverb_segment_data)
    (angle : ℚ) (hmiss : ∀ i : Fin 32, ¬ is_hit data i) :
    recompute_parameter data angle = (0, 0, 0) := by
  have hd : distance_sum data angle = 0 :=
    Finset.sum_eq_zero fun i _ => by simp [hmiss i]
  have hh : hit_ratio_sum data angle = 0 :=
    Finset.sum_eq_zero fun i _ => by simp [hmiss i]
  have ha : absorption_sum data angle = 0 :=
    Finset.sum_eq_zero fun i _ => by simp [hmiss i]
  unfold recompute_parameter
  rw [hd, hh, ha]
  split <;> simp

/-- A concrete engine state in which every probe is a miss while the
direction-0 weight sum is large: all 32 probes sit exactly at the
direction-0 angle 0.75π with distance 1000, equal to the default cutoff
(`1000 < 1000` is false, so every probe misses). -/
def c5_data : spatial_reverb_segment_data :=
  { (mixed_make_segment_spatial_reverb 10).data with
      probe_angles := fun _ => M_PI * (3/4)
      probe_distances := fun _ => 1000 }

/-- C5 witness: on `c5_data` (all probes missing), the direction-1
recompute resolves to all zeros. -/
theorem C5_witness :
    recompute_parameter c5_data (M_PI * (5/4)) = (0, 0, 0) :=
  C5_all_miss_resolves_to_zero c5_data (M_PI * (5/4))
    (fun i => by norm_num [is_hit, c5_data, mixed_make_segment_spatial_reverb])

/-- C5 counterexample: on `c5_data` every probe is a miss, the direction-0
weight sum exceeds 0.01 (it is `32 * gauss(0) ≈ 63.8`), yet the resolved
distance is 0 — refuting the claim that the distance resolves to 0 only
when the weight sum is at most 0.01. -/
theorem C5_counterexample_distance_zero_despite_weight :
    1/100 < weight_sum c5_data (M_PI * (3/4)) ∧
    (recompute_parameter c5_data (M_PI * (3/4))).1 = 0 := by
  have hmiss : ∀ i : Fin 32, ¬ is_hit c5_data i := by
    intro i
    norm_num [is_hit, c5_data, mixed_make_segment_spatial_reverb]
  have hw : weight_sum c5_data (M_PI * (3/4)) = 32 * gauss 0 := by
    simp [weight_sum, probe_weight, c5_data, mixed_make_segment_spatial_reverb,
      Finset.sum_const]
  have hgt : (1:ℚ)/100 < 32 * gauss 0 := by
    norm_num [gauss, rexp, Finset.sum_range_succ, sqrt_2_M_PI]
  have hd : distance_sum c5_data (M_PI * (3/4)) = 0 :=
    Finset.sum_eq_zero fun i _ => by simp [hmiss i]
  refine ⟨hw ▸ hgt, ?_⟩
  unfold recompute_parameter
  rw [if_pos (hw ▸ hgt)]
  simp [hd]

/-- A concrete engine state satisfying the writeIndex invariant, with
every direction at `delay_idx = 5`, `delay_length = 10`. -/
def c2_state : segment_state :=
  { mixed_make_segment_spatial_reverb 10 with
    data := { (mixed_make_segment_spatial_reverb 10).data with
      directions := fun d =>
        { (mixed_make_segment_spatial_reverb 10).data.directions d with
            delay_idx := 5, delay_length := 10 } } }

/-- C2 counterexample: `c2_state` satisfies the invariant
`writeIndex < delayLengthSamples`, but a bulk parameter set with distance
0 shrinks every delay length to the clamp floor 1 while leaving
`delay_idx = 5` untouched, breaking the invariant. -/
theorem C2_counterexample_shrink_breaks_invariant :
    write_index_invariant c2_state.data ∧
    ¬ write_index_invariant
        (spatial_reverb_segment_set (.parameters (fun _ => 0)) c2_state).2.data := by
  refine ⟨by decide, fun h => ?_⟩
  have h0 := h 0
  simp [c2_state, spatial_reverb_segment_set, update_parameters,
    mixed_make_segment_spatial_reverb, write_index_invariant] at h0
  norm_num [qtrunc] at h0

/-- C2 (amended): the invariant `writeIndex < delayLengthSamples` is
established by start, preserved (indeed re-established) by every mix step,
and untouched by the sets of the distance-delay factor, the cutoff, the
bypass flag and unknown fields, which do not modify direction state; but a
parameter recompute (bulk parameter set or probe insertion) never clamps
`delay_idx`, so it preserves the invariant exactly when each direction's
current `delay_idx` is below its new clamped delay length — a shrink to a
length at or below the index breaks the invariant. -/
theorem C2_amended_invariant_preservation (s : segment_state)
    (hlen : ∀ d : Fin 4, 1 ≤ (s.data.directions d).delay_length) :
    write_index_invariant (spatial_reverb_segment_start s.data) ∧
    (∀ L R : ℚ, write_index_invariant (mix_sample s.data L R).1) ∧
    (∀ v : ℚ, (spatial_reverb_segment_set (.distance_delay v) s).2.data.directions
        = s.data.directions) ∧
    (∀ v : ℚ, (spatial_reverb_segment_set (.max_cutoff v) s).2.data.directions
        = s.data.directions) ∧
    (∀ b : Bool, (spatial_reverb_segment_set (.bypass_flag b) s).2.data.directions
        = s.data.directions) ∧
    (∀ n : ℕ, (spatial_reverb_segment_set (.unknown n) s).2.data.directions
        = s.data.directions) ∧
    (∀ dists hits abss : Fin 4 → ℚ,
      (∀ d : Fin 4,
        ((update_parameters s.data dists hits abss).directions d).delay_idx
          = (s.data.directions d).delay_idx) ∧
      (write_index_invariant (update_parameters s.data dists hits abss) ↔
        ∀ d : Fin 4, (s.data.directions d).delay_idx <
          max 1 (min (qtrunc ((s.data.distance_delay_factor * dists d)
            * (s.data.samplerate : ℚ))).toNat s.data.delay_capacity))) ∧
    (∀ a dd mm : ℚ, ∀ d : Fin 4,
      ((spatial_reverb_segment_set (.probe a dd mm) s).2.data.directions d).delay_idx
        = (s.data.directions d).delay_idx) := by
  refine ⟨?_, ?_, fun v => ?_, fun v => rfl, fun b => rfl, fun n => rfl,
    fun dists hits abss => ⟨fun d => rfl, Iff.rfl⟩, fun a dd mm d => rfl⟩
  · intro d
    have := hlen d
    simp only [spatial_reverb_segment_start, write_index_invariant]
    omega
  · intro L R d
    exact Nat.mod_lt _ (hlen d)
  · by_cases hv : v < 0 <;> simp [spatial_reverb_segment_set, hv]

/-- C2 witness: on the freshly created engine (all delay lengths 1), start
establishes the invariant and a mix step preserves it. -/
theorem C2_witness :
    write_index_invariant
      (spatial_reverb_segment_start (mixed_make_segment_spatial_reverb 10).data) ∧
    write_index_invariant
      (mix_sample (mixed_make_segment_spatial_reverb 10).data 1 2).1 :=
  ⟨(C2_amended_invariant_preservation (mixed_make_segment_spatial_reverb 10)
      (fun d => le_refl 1)).1,
   (C2_amended_invariant_preservation (mixed_make_segment_spatial_reverb 10)
      (fun d => le_refl 1)).2.1 1 2⟩

/-- C3: per direction and per rendered sample, the value at `delay_idx` is
read as `delayed` and then overwritten with `last + input`; the output is
`allpass(lowpass(gain * delayed))` in that fixed filter order (with the
matching filter-state updates); `last` becomes that output; `delay_idx`
advances to `(delay_idx + 1) mod delay_length`; and the render loop drives
each direction through exactly this step on the upmixed input
`{L, L, R, R}`, averaging pairs for the stereo output. -/
theorem C3_processing_order (dir : spatial_reverb_direction) (input : ℚ)
    (data : spatial_reverb_segment_data) (L R : ℚ) (d : Fin 4) :
    (dir_step dir input).1.delay
      = Function.update dir.delay dir.delay_idx (dir.last + input) ∧
    (dir_step dir input).2
      = (biquad_sample
          (biquad_sample (dir.gain * dir.delay dir.delay_idx) dir.lpf).1 dir.apf).1 ∧
    (dir_step dir input).1.lpf
      = (biquad_sample (dir.gain * dir.delay dir.delay_idx) dir.lpf).2 ∧
    (dir_step dir input).1.apf
      = (biquad_sample
          (biquad_sample (dir.gain * dir.delay dir.delay_idx) dir.lpf).1 dir.apf).2 ∧
    (dir_step dir input).1.last = (dir_step dir input).2 ∧
    (dir_step dir input).1.delay_idx = (dir.delay_idx + 1) % dir.delay_length ∧
    (dir_step dir input).1.delay_length = dir.delay_length ∧
    (dir_step dir input).1.gain = dir.gain ∧
    (mix_sample data L R).1.directions d
      = (dir_step (data.directions d) (![L, L, R, R] d)).1 ∧
    (mix_sample data L R).2.1
      = ((dir_step (data.directions 0) L).2 + (dir_step (data.directions 1) L).2) / 2 ∧
    (mix_sample data L R).2.2
      = ((dir_step (data.directions 2) R).2 + (dir_step (data.directions 3) R).2) / 2 := by
  rw [mul_comm dir.gain (dir.delay dir.delay_idx)]
  exact ⟨rfl, rfl, rfl, rfl, rfl, rfl, rfl, rfl, rfl, rfl, rfl⟩

/-- A silent filter state propagates: on input 0 a zero-state biquad
outputs 0 and stays in the zero state. -/
lemma dir_step_silent (dir : spatial_reverb_direction) (h : dir_silent dir) :
    (dir_step dir 0).2 = 0 ∧ dir_silent (dir_step dir 0).1 := by
  obtain ⟨hlast, hdelay, hl1, hl2, hl3, hl4, ha1, ha2, ha3, ha4⟩ := h
  have hout : (dir_step dir 0).2 = 0 := by
    simp [dir_step, biquad_sample, hlast, hdelay dir.delay_idx,
      hl1, hl2, hl3, hl4, ha1, ha2, ha3, ha4]
  refine ⟨hout, ?_, fun i => ?_, ?_, ?_, ?_, ?_, ?_, ?_, ?_, ?_⟩ <;>
    simp [dir_step, biquad_sample, hlast, hdelay, hdelay dir.delay_idx,
      hl1, hl2, hl3, hl4, ha1, ha2, ha3, ha4, Function.update_apply]

/-- Silence of all four directions propagates through one zero-input mix
sample: the output frame is (0, 0) and the state stays silent. -/
lemma mix_sample_silent (data : spatial_reverb_segment_data)
    (h : all_silent data) :
    (mix_sample data 0 0).2 = (0, 0) ∧ all_silent (mix_sample data 0 0).1 := by
  have hin : ∀ d : Fin 4, (![(0:ℚ), 0, 0, 0] d) = 0 := by
    intro d; fin_cases d <;> rfl
  have hstep : ∀ d : Fin 4,
      (dir_step (data.directions d) 0).2 = 0 ∧
      dir_silent (dir_step (data.directions d) 0).1 :=
    fun d => dir_step_silent _ (h d)
  constructor
  · have h1 : (mix_sample data 0 0).2.1 = 0 := by
      show ((dir_step (data.directions 0) (![(0:ℚ), 0, 0, 0] 0)).2
          + (dir_step (data.directions 1) (![(0:ℚ), 0, 0, 0] 1)).2) / 2 = 0
      rw [hin 0, hin 1, (hstep 0).1, (hstep 1).1]
      norm_num
    have h2 : (mix_sample data 0 0).2.2 = 0 := by
      show ((dir_step (data.directions 2) (![(0:ℚ), 0, 0, 0] 2)).2
          + (dir_step (data.directions 3) (![(0:ℚ), 0, 0, 0] 3)).2) / 2 = 0
      rw [hin 2, hin 3, (hstep 2).1, (hstep 3).1]
      norm_num
    rw [Prod.ext_iff]
    exact ⟨h1, h2⟩
  · intro d
    show dir_silent (dir_step (data.directions d) (![(0:ℚ), 0, 0, 0] d)).1
    rw [hin d]
    exact (hstep d).2

/-- Start puts every direction into the silent reset state. -/
lemma start_all_silent (data : spatial_reverb_segment_data) :
    all_silent (spatial_reverb_segment_start data) := by
  intro d
  exact ⟨rfl, fun i => rfl, rfl, rfl, rfl, rfl, rfl, rfl, rfl, rfl⟩

/-- C7: after start (which zeroes all four delay buffers, write indices,
feedback accumulators and both filter states), rendering any number of
all-zero stereo input samples produces all-zero output in both channels. -/
theorem C7_silence_after_start (data : spatial_reverb_segment_data) (n : ℕ) :
    (mix_block (spatial_reverb_segment_start data)
        (List.replicate n (0, 0))).2 = List.replicate n (0, 0) := by
  have main : ∀ (m : ℕ) (st : spatial_reverb_segment_data), all_silent st →
      (mix_block st (List.replicate m (0, 0))).2 = List.replicate m (0, 0) := by
    intro m
    induction m with
    | zero => intro st _; rfl
    | succ k ih =>
        intro st hst
        obtain ⟨hout, hsil⟩ := mix_sample_silent st hst
        simp only [List.replicate_succ, mix_block, hout, ih _ hsil]
  exact main n _ (start_all_silent data)
